import Mathlib

/-!
Verification of the TradingView-to-Discord relay handler
(src/webhook_server.py) against its specification.

The handler is a single Flask view function. We embed it as a pure
function over:
  - the configuration (DISCORD_WEBHOOK_URL and SECRET_KEY, both optional
    strings; the source hard-codes SECRET_KEY = None but documents the
    environment-variable alternative, so the embedding takes it as a
    parameter and also records the shipped constant),
  - the outcome of the external JSON-parsing stage (Flask request.json:
    either an exception, or an optional parsed value),
  - the formatted wall-clock timestamp string (datetime.now),
  - the downstream result of requests.post (a status/body response, or a
    network-level failure caught as RequestException).

Python values parsed from JSON are embedded as the inductive Json below;
Python dict.get, truthiness of optional strings, str() formatting inside
f-strings, and str.upper (ASCII) are embedded explicitly. Numbers are
embedded as integers, and the Python repr of strings inside containers is
embedded as plain single quotes without escape handling; no claim depends
on those corners.
-/

/-- A JSON value as produced by parsing the request body (Python objects:
None, bool, int, str, list, dict with string keys). -/
inductive Json where
  | null : Json
  | bool (b : Bool) : Json
  | num (n : Int) : Json
  | str (s : String) : Json
  | arr (xs : List Json) : Json
  | obj (fields : List (String × Json)) : Json

/-- Python repr() of a parsed-JSON value, used when a container is
formatted. String quoting is simplified to plain single quotes. -/
def pyRepr : Json → String
  | Json.null => "None"
  | Json.bool true => "True"
  | Json.bool false => "False"
  | Json.num n => toString n
  | Json.str s => "\x27" ++ s ++ "\x27"
  | Json.arr xs => "[" ++ String.intercalate ", " (xs.attach.map (fun x => pyRepr x.1)) ++ "]"
  | Json.obj fs => "\x7b" ++ String.intercalate ", "
      (fs.attach.map (fun f => "\x27" ++ f.1.1 ++ "\x27: " ++ pyRepr f.1.2)) ++ "\x7d"
decreasing_by
  all_goals simp_wf
  all_goals
    first
    | (have h := List.sizeOf_lt_of_mem x.2
       omega)
    | (have h := List.sizeOf_lt_of_mem f.2
       rcases f with ⟨⟨a, b⟩, hf⟩
       simp at h ⊢
       omega)

/-- Python str() of a parsed-JSON value, as interpolated by an f-string:
a string is inserted verbatim, anything else via repr-like formatting. -/
def pyStr : Json → String
  | Json.str s => s
  | j => pyRepr j

/-- Python str.upper, ASCII range (every claim uses ASCII input):
upper-case every character. -/
def pyUpper (s : String) : String := String.mk (s.data.map Char.toUpper)

/-- Lookup in a parsed JSON object (Python dict keys are unique, so the
first binding is the binding). -/
def jlookup (fs : List (String × Json)) (k : String) : Option Json :=
  (fs.find? (fun p => p.1 == k)).map (fun p => p.2)

/-- Python dict.get with a default: AttributeError (modelled as the error
case) when the receiver is not a dict. Embeds data.get(key, default) at
src/webhook_server.py lines 76-77. -/
def pyGetD (data : Json) (k : String) (dflt : Json) : Except Unit Json :=
  match data with
  | Json.obj fs => Except.ok ((jlookup fs k).getD dflt)
  | _ => Except.error ()

/-- Truthiness of a Python optional string: None and the empty string are
falsy. Embeds the checks at lines 49 and 69 of src/webhook_server.py. -/
def optFalsy : Option String → Bool
  | none => true
  | some s => s.isEmpty

/-- The comparison data.get("key") != SECRET_KEY at line 70: a parsed JSON
value equals a Python string only when it is that string. -/
def keyMatches (v : Option Json) (s : String) : Bool :=
  match v with
  | some (Json.str t) => t == s
  | _ => false

/-- The outcome of the external Flask request.json property: either it
raised an exception (caught at line 62), or it returned an optional
value (None for an empty or invalid body, per the log message at
line 60). -/
inductive ParseOutcome where
  | raised : ParseOutcome
  | value (d : Option Json) : ParseOutcome

/-- Model of the data produced by Flask request.json, external to this
repository, for an empty request body: no data, which the handler reports
as "Request body is empty or not valid JSON" (line 60). -/
def emptyBodyParse : ParseOutcome := ParseOutcome.value none

/-- The downstream result of requests.post at line 90: either Discord
replied with some status code and body text, or a RequestException
(timeout, DNS error, connection refused) was raised. -/
inductive Downstream where
  | reply (status : Nat) (text : String) : Downstream
  | netFail : Downstream

/-- An HTTP response produced by the handler: status code plus jsonify
body. -/
structure Resp where
  status : Nat
  body : Json

/-- What one invocation of the handler does: either it returns a response
(recording, in outbound, the JSON payload POSTed to Discord, if the POST
was reached), or an exception escaped the handler uncaught. -/
inductive HandlerOutcome where
  | resp (r : Resp) (outbound : Option Json) : HandlerOutcome
  | uncaught : HandlerOutcome

/-- The payload POSTed to Discord during the invocation, if any. -/
def HandlerOutcome.outbound : HandlerOutcome → Option Json
  | HandlerOutcome.resp _ o => o
  | HandlerOutcome.uncaught => none

/-- jsonify body for error returns. -/
def errBody (m : String) : Json :=
  Json.obj [("status", Json.str "error"), ("message", Json.str m)]

/-- jsonify body for the success return at line 104. -/
def okBody : Json := Json.obj [("status", Json.str "ok")]

/-- jsonify body for the 502 return at lines 97-101, embedding the
downstream response text. -/
def relayFailBody (text : String) : Json :=
  Json.obj [("status", Json.str "error"),
            ("message", Json.str "Failed to relay message to Discord"),
            ("discord_response", Json.str text)]

/-- The lookup data.get(ticker, default unknown), line 76. -/
def tickerOf (data : Json) : Except Unit Json :=
  pyGetD data "ticker" (Json.str "unknown")

/-- The chained lookup data.get(strategy, default empty dict).get(order_action, default none), line 77. -/
def signalOf (data : Json) : Except Unit Json := do
  let strat ← pyGetD data "strategy" (Json.obj [])
  pyGetD strat "order_action" (Json.str "none")

/-- signal.upper() inside the f-string requires a Python string receiver;
anything else raises AttributeError, caught at line 84. -/
def asStr : Json → Except Unit String
  | Json.str s => Except.ok s
  | _ => Except.error ()

/-- The f-string at line 81: [time] **symbol**: `SIGNAL` シグナルを検出. -/
def messageText (timeStr : String) (symbol : Json) (sig : String) : String :=
  "[" ++ timeStr ++ "] **" ++ pyStr symbol ++ "**: `" ++ pyUpper sig ++ "` シグナルを検出"

/-- The try-block at lines 75-83: extract symbol and signal, format the
message; any exception inside maps to the 400 "Invalid data format"
return at line 86. -/
def buildMessage (data : Json) (timeStr : String) : Except Unit String := do
  let symbol ← tickerOf data
  let signalJ ← signalOf data
  let sig ← asStr signalJ
  pure (messageText timeStr symbol sig)

/-- The timeout (seconds) passed to requests.post at line 90. -/
def requestTimeoutSeconds : Nat := 5

/-- Steps 4 and 5 of the handler (lines 74-110): build the message, POST
it, and map the downstream outcome to a response. -/
def relay (data : Json) (timeStr : String) (down : Downstream) : HandlerOutcome :=
  match buildMessage data timeStr with
  | Except.error _ =>
      HandlerOutcome.resp ⟨400, errBody "Invalid data format"⟩ none
  | Except.ok msg =>
      let payload := Json.obj [("content", Json.str msg)]
      match down with
      | Downstream.netFail =>
          HandlerOutcome.resp ⟨503, errBody "Could not connect to Discord"⟩ (some payload)
      | Downstream.reply st text =>
          if 200 ≤ st ∧ st < 300 then
            HandlerOutcome.resp ⟨200, okBody⟩ (some payload)
          else
            HandlerOutcome.resp ⟨502, relayFailBody text⟩ (some payload)

/-- The shipped configuration of the secret key: line 19 sets
SECRET_KEY = None. -/
def SECRET_KEY : Option String := none

/-- The webhook view function (lines 43-110). Inputs: the configured
webhook URL and secret key, the outcome of request.json, the formatted
current time, and the downstream behaviour of requests.post. Note the
secret check at line 70 calls data.get outside any try-block, so a
non-dict payload there raises an uncaught AttributeError. -/
def webhook (url secretKey : Option String) (parse : ParseOutcome)
    (timeStr : String) (down : Downstream) : HandlerOutcome :=
  if optFalsy url then
    HandlerOutcome.resp ⟨500, errBody "Internal server configuration error"⟩ none
  else
    match parse with
    | ParseOutcome.raised =>
        HandlerOutcome.resp ⟨400, errBody "Failed to parse JSON"⟩ none
    | ParseOutcome.value none =>
        HandlerOutcome.resp ⟨400, errBody "Invalid JSON or empty body"⟩ none
    | ParseOutcome.value (some data) =>
        match secretKey with
        | none => relay data timeStr down
        | some s =>
            if s.isEmpty then relay data timeStr down
            else
              match data with
              | Json.obj fs =>
                  if keyMatches (jlookup fs "key") s then relay data timeStr down
                  else HandlerOutcome.resp ⟨403, errBody "Unauthorized"⟩ none
              | _ => HandlerOutcome.uncaught

/-- Modelled from the spec: the raw-text deployment variant of the relay
handler is not among the files under src/ (the spec describes two
near-duplicate handler variants, JSON and raw-text; only the JSON one is
present). Per the spec: decode the body as UTF-8 text (here: the decode
outcome is the optional input), decode failure or empty result gives 400,
otherwise the outbound content is the decoded text unchanged and the
forwarding and outcome mapping are those of the structured variant; the
secret check is a no-op in this mode. -/
def webhookRaw (url : Option String) (decoded : Option String)
    (down : Downstream) : HandlerOutcome :=
  if optFalsy url then
    HandlerOutcome.resp ⟨500, errBody "Internal server configuration error"⟩ none
  else
    match decoded with
    | none => HandlerOutcome.resp ⟨400, errBody "Invalid or empty body"⟩ none
    | some txt =>
        if txt.isEmpty then
          HandlerOutcome.resp ⟨400, errBody "Invalid or empty body"⟩ none
        else
          let payload := Json.obj [("content", Json.str txt)]
          match down with
          | Downstream.netFail =>
              HandlerOutcome.resp ⟨503, errBody "Could not connect to Discord"⟩ (some payload)
          | Downstream.reply st text =>
              if 200 ≤ st ∧ st < 300 then
                HandlerOutcome.resp ⟨200, okBody⟩ (some payload)
              else
                HandlerOutcome.resp ⟨502, relayFailBody text⟩ (some payload)

/-- t occurs as a contiguous substring of s. -/
def substrOf (t s : String) : Prop := ∃ a b, s = a ++ t ++ b

/-- The response-body shape the spec requires: a JSON object whose status
field is "ok" or "error", with a message field present on error. -/
def goodBody : Json → Bool
  | Json.obj fs =>
      match jlookup fs "status" with
      | some (Json.str "ok") => true
      | some (Json.str "error") => (jlookup fs "message").isSome
      | _ => false
  | _ => false

/-- The response invariant the spec states for the handler: the invocation
produced a response (no uncaught exception), its status code is one of the
six documented codes, and its body has the documented shape. -/
def goodOutcome : HandlerOutcome → Prop
  | HandlerOutcome.resp r _ =>
      (r.status = 200 ∨ r.status = 400 ∨ r.status = 403 ∨ r.status = 500 ∨
        r.status = 502 ∨ r.status = 503) ∧ goodBody r.body = true
  | HandlerOutcome.uncaught => False

/-! ### Helper lemmas -/

theorem str_append_assoc (a b c : String) : a ++ b ++ c = a ++ (b ++ c) := by
  apply String.ext
  simp [String.data_append, List.append_assoc]

theorem relay_of_ok (data : Json) (t : String) (down : Downstream) (msg : String)
    (hb : buildMessage data t = Except.ok msg) :
    relay data t down =
      match down with
      | Downstream.netFail =>
          HandlerOutcome.resp ⟨503, errBody "Could not connect to Discord"⟩
            (some (Json.obj [("content", Json.str msg)]))
      | Downstream.reply st text =>
          if 200 ≤ st ∧ st < 300 then
            HandlerOutcome.resp ⟨200, okBody⟩ (some (Json.obj [("content", Json.str msg)]))
          else
            HandlerOutcome.resp ⟨502, relayFailBody text⟩
              (some (Json.obj [("content", Json.str msg)])) := by
  unfold relay
  rw [hb]

theorem relay_outbound (data : Json) (t : String) (down : Downstream) (p : Json)
    (h : (relay data t down).outbound = some p) :
    ∃ msg, buildMessage data t = Except.ok msg ∧
      p = Json.obj [("content", Json.str msg)] := by
  unfold relay at h
  cases hb : buildMessage data t with
  | error e =>
      rw [hb] at h
      simp [HandlerOutcome.outbound] at h
  | ok msg =>
      rw [hb] at h
      refine ⟨msg, rfl, ?_⟩
      cases down with
      | netFail =>
          simp [HandlerOutcome.outbound] at h
          exact h.symm
      | reply st text =>
          by_cases hst : 200 ≤ st ∧ st < 300 <;>
            simp [hst, HandlerOutcome.outbound] at h <;> exact h.symm

theorem webhook_reaches_relay (url sk : Option String) (parse : ParseOutcome)
    (t : String) (down : Downstream) (p : Json)
    (h : (webhook url sk parse t down).outbound = some p) :
    ∃ data, parse = ParseOutcome.value (some data) ∧
      webhook url sk parse t down = relay data t down := by
  unfold webhook at h ⊢
  by_cases hu : optFalsy url = true
  · simp [hu, HandlerOutcome.outbound] at h
  · simp only [hu, Bool.false_eq_true, if_false] at h ⊢
    cases parse with
    | raised => simp [HandlerOutcome.outbound] at h
    | value d =>
        cases d with
        | none => simp [HandlerOutcome.outbound] at h
        | some data =>
            refine ⟨data, rfl, ?_⟩
            cases sk with
            | none => rfl
            | some s =>
                by_cases hs : s.isEmpty = true
                · simp [hs] at h ⊢
                · simp only [hs, Bool.false_eq_true, if_false] at h ⊢
                  cases data with
                  | obj fs =>
                      by_cases hk : keyMatches (jlookup fs "key") s = true
                      · simp [hk] at h ⊢
                      · simp [hk, HandlerOutcome.outbound] at h
                  | null => simp [HandlerOutcome.outbound] at h
                  | bool b => simp [HandlerOutcome.outbound] at h
                  | num n => simp [HandlerOutcome.outbound] at h
                  | str s2 => simp [HandlerOutcome.outbound] at h
                  | arr xs => simp [HandlerOutcome.outbound] at h

/-! ### Claim theorems -/

/-- Claim C3: when no webhook URL is configured, every request is answered
with 500 and the configuration-error body, no payload extraction is
consulted and no outbound call is made (outbound is none), whatever the
body, secret and downstream behaviour. -/
theorem webhook_missing_url (sk : Option String) (parse : ParseOutcome)
    (t : String) (down : Downstream) :
    webhook none sk parse t down =
      HandlerOutcome.resp ⟨500, errBody "Internal server configuration error"⟩ none := rfl

/-- Claim C10: a configured webhook URL equal to the empty string is
treated exactly like an absent one: the handler behaves identically to the
unconfigured case and returns 500 with the configuration-error body and no
outbound call. -/
theorem webhook_empty_url (sk : Option String) (parse : ParseOutcome)
    (t : String) (down : Downstream) :
    webhook (some "") sk parse t down =
      HandlerOutcome.resp ⟨500, errBody "Internal server configuration error"⟩ none ∧
    webhook (some "") sk parse t down = webhook none sk parse t down :=
  ⟨rfl, rfl⟩

/-- Claim C4: with a non-empty secret configured, a structured (object)
payload whose key field does not match the secret (a missing key field
included, since keyMatches is false on none) is rejected with 403, the
Unauthorized body, and no outbound call, for every request that passes
the earlier configuration and parsing steps. -/
theorem webhook_unauthorized (url : Option String) (s : String)
    (fs : List (String × Json)) (t : String) (down : Downstream)
    (hurl : optFalsy url = false) (hs : s.isEmpty = false)
    (hkey : keyMatches (jlookup fs "key") s = false) :
    webhook url (some s) (ParseOutcome.value (some (Json.obj fs))) t down =
      HandlerOutcome.resp ⟨403, errBody "Unauthorized"⟩ none := by
  unfold webhook
  simp [hurl, hs, hkey]

/-- Witness for C4 at concrete inputs: a wrong key and an absent key are
both rejected with 403 and no outbound call. -/
theorem webhook_unauthorized_witness :
    webhook (some "https://discord.example/hook") (some "sec")
      (ParseOutcome.value (some (Json.obj [("key", Json.str "wrong")])))
      "2024-01-01 00:00:00" Downstream.netFail =
      HandlerOutcome.resp ⟨403, errBody "Unauthorized"⟩ none ∧
    webhook (some "https://discord.example/hook") (some "sec")
      (ParseOutcome.value (some (Json.obj [("ticker", Json.str "BTCUSD")])))
      "2024-01-01 00:00:00" Downstream.netFail =
      HandlerOutcome.resp ⟨403, errBody "Unauthorized"⟩ none :=
  ⟨webhook_unauthorized (some "https://discord.example/hook") "sec"
     [("key", Json.str "wrong")] "2024-01-01 00:00:00" Downstream.netFail rfl rfl rfl,
   webhook_unauthorized (some "https://discord.example/hook") "sec"
     [("ticker", Json.str "BTCUSD")] "2024-01-01 00:00:00" Downstream.netFail rfl rfl rfl⟩

/-- Claim C5: in structured mode, both failure modes of the parsing stage
(the parse raising, and the parse producing no data, the case the handler
logs as an empty or invalid body) are answered with 400; in particular the
empty-body parse outcome yields exactly the Invalid JSON or empty body
message, with no outbound call. -/
theorem webhook_bad_json (url sk : Option String) (t : String)
    (down : Downstream) (hurl : optFalsy url = false) :
    (∀ parse, (parse = ParseOutcome.raised ∨ parse = ParseOutcome.value none) →
      ∃ m, webhook url sk parse t down = HandlerOutcome.resp ⟨400, errBody m⟩ none) ∧
    webhook url sk emptyBodyParse t down =
      HandlerOutcome.resp ⟨400, errBody "Invalid JSON or empty body"⟩ none := by
  constructor
  · intro parse hp
    rcases hp with hp | hp <;> subst hp
    · exact ⟨"Failed to parse JSON", by unfold webhook; simp [hurl]⟩
    · exact ⟨"Invalid JSON or empty body", by unfold webhook; simp [hurl]⟩
  · unfold emptyBodyParse webhook
    simp [hurl]

/-- Witness for C5 at a concrete configuration: an empty request body is
answered 400 with the Invalid JSON or empty body message. -/
theorem webhook_bad_json_witness :
    webhook (some "https://discord.example/hook") none emptyBodyParse
      "2024-01-01 00:00:00" Downstream.netFail =
      HandlerOutcome.resp ⟨400, errBody "Invalid JSON or empty body"⟩ none :=
  (webhook_bad_json (some "https://discord.example/hook") none "2024-01-01 00:00:00" Downstream.netFail rfl).2

/-- Claim C1: whenever a structured payload makes the handler POST a
message (outbound is some payload), that payload is the content object
built from the f-string, and the message text contains the str() of the
extracted ticker value, the upper-cased extracted action value and the
timestamp as substrings; the extraction defaults the ticker to "unknown"
when the ticker field is absent and the action to "none" when the
strategy field is absent. -/
theorem webhook_message_fields (url sk : Option String) (data symbol : Json)
    (sig : String) (t : String) (down : Downstream) (p : Json)
    (h : (webhook url sk (ParseOutcome.value (some data)) t down).outbound = some p)
    (hsym : tickerOf data = Except.ok symbol)
    (hsig : signalOf data = Except.ok (Json.str sig)) :
    p = Json.obj [("content", Json.str (messageText t symbol sig))] ∧
    substrOf (pyStr symbol) (messageText t symbol sig) ∧
    substrOf (pyUpper sig) (messageText t symbol sig) ∧
    substrOf t (messageText t symbol sig) ∧
    (∀ fs, data = Json.obj fs → jlookup fs "ticker" = none →
      symbol = Json.str "unknown") ∧
    (∀ fs, data = Json.obj fs → jlookup fs "strategy" = none → sig = "none") := by
  have hbuild : buildMessage data t = Except.ok (messageText t symbol sig) := by
    simp [buildMessage, hsym, hsig, asStr, Bind.bind, Except.bind, Functor.map,
      Except.map, pure, Except.pure]
  refine ⟨?_, ?_, ?_, ?_, ?_, ?_⟩
  · obtain ⟨d2, hd2, heq⟩ := webhook_reaches_relay _ _ _ _ _ _ h
    have hdd : d2 = data := by
      injection hd2 with h1
      injection h1 with h2
      exact h2.symm
    subst hdd
    rw [heq] at h
    obtain ⟨msg, hb, hp⟩ := relay_outbound _ _ _ _ h
    rw [hbuild] at hb
    injection hb with hmsg
    rw [hp, hmsg]
  · refine ⟨"[" ++ t ++ "] **", "**: `" ++ pyUpper sig ++ "` シグナルを検出", ?_⟩
    simp only [messageText, str_append_assoc]
  · refine ⟨"[" ++ t ++ "] **" ++ pyStr symbol ++ "**: `", "` シグナルを検出", ?_⟩
    simp only [messageText, str_append_assoc]
  · refine ⟨"[", "] **" ++ pyStr symbol ++ "**: `" ++ pyUpper sig ++ "` シグナルを検出", ?_⟩
    simp only [messageText, str_append_assoc]
  · intro fs hdata hnone
    subst hdata
    simp [tickerOf, pyGetD, hnone] at hsym
    exact hsym.symm
  · intro fs hdata hnone
    subst hdata
    have h1 : signalOf (Json.obj fs) = Except.ok (Json.str "none") := by
      simp only [signalOf, pyGetD, Bind.bind, Except.bind]
      rw [hnone]
      rfl
    rw [h1] at hsig
    injection hsig with h2
    injection h2 with h3
    exact h3.symm

/-- Witness for C1 at the concrete scenario from the spec: ticker BTCUSD,
action buy; the outbound content is the formatted message and it contains
BTCUSD, BUY and the timestamp. -/
theorem webhook_message_fields_witness :
    Json.obj [("content",
        Json.str (messageText "2024-01-01 00:00:00" (Json.str "BTCUSD") "buy"))] =
      Json.obj [("content",
        Json.str (messageText "2024-01-01 00:00:00" (Json.str "BTCUSD") "buy"))] ∧
    substrOf (pyStr (Json.str "BTCUSD"))
      (messageText "2024-01-01 00:00:00" (Json.str "BTCUSD") "buy") ∧
    substrOf (pyUpper "buy")
      (messageText "2024-01-01 00:00:00" (Json.str "BTCUSD") "buy") ∧
    substrOf "2024-01-01 00:00:00"
      (messageText "2024-01-01 00:00:00" (Json.str "BTCUSD") "buy") :=
  have h := webhook_message_fields (some "https://discord.example/hook") none
    (Json.obj [("ticker", Json.str "BTCUSD"),
               ("strategy", Json.obj [("order_action", Json.str "buy")])])
    (Json.str "BTCUSD") "buy" "2024-01-01 00:00:00" (Downstream.reply 204 "")
    (Json.obj [("content",
      Json.str (messageText "2024-01-01 00:00:00" (Json.str "BTCUSD") "buy"))])
    rfl rfl rfl
  ⟨h.1, h.2.1, h.2.2.1, h.2.2.2.1⟩

/-- Claim C2: whenever the outbound POST is made and Discord replies, a
status in [200,300) makes the handler answer 200 with the ok body, and a
status outside that range makes it answer 502 with the error body that
embeds the downstream response text verbatim. -/
theorem webhook_downstream_mapping (url sk : Option String) (parse : ParseOutcome)
    (t : String) (st : Nat) (text : String) (p : Json)
    (h : (webhook url sk parse t (Downstream.reply st text)).outbound = some p) :
    (200 ≤ st ∧ st < 300 →
      webhook url sk parse t (Downstream.reply st text) =
        HandlerOutcome.resp ⟨200, okBody⟩ (some p)) ∧
    (¬(200 ≤ st ∧ st < 300) →
      webhook url sk parse t (Downstream.reply st text) =
        HandlerOutcome.resp ⟨502, relayFailBody text⟩ (some p)) := by
  obtain ⟨data, hparse, heq⟩ := webhook_reaches_relay _ _ _ _ _ _ h
  rw [heq] at h ⊢
  obtain ⟨msg, hb, hp⟩ := relay_outbound _ _ _ _ h
  rw [relay_of_ok _ _ _ _ hb]
  subst hp
  constructor
  · intro hst
    simp [hst]
  · intro hst
    simp [hst]

/-- Witness for C2 at concrete inputs: downstream 204 gives 200 ok,
downstream 404 gives 502 with the downstream body embedded. -/
theorem webhook_downstream_mapping_witness :
    webhook (some "https://discord.example/hook") none
      (ParseOutcome.value (some (Json.obj []))) "2024-01-01 00:00:00"
      (Downstream.reply 204 "") =
      HandlerOutcome.resp ⟨200, okBody⟩
        (some (Json.obj [("content",
          Json.str (messageText "2024-01-01 00:00:00" (Json.str "unknown") "none"))])) ∧
    webhook (some "https://discord.example/hook") none
      (ParseOutcome.value (some (Json.obj []))) "2024-01-01 00:00:00"
      (Downstream.reply 404 "rate limited") =
      HandlerOutcome.resp ⟨502, relayFailBody "rate limited"⟩
        (some (Json.obj [("content",
          Json.str (messageText "2024-01-01 00:00:00" (Json.str "unknown") "none"))])) :=
  ⟨(webhook_downstream_mapping (some "https://discord.example/hook") none
      (ParseOutcome.value (some (Json.obj []))) "2024-01-01 00:00:00" 204 ""
      (Json.obj [("content",
        Json.str (messageText "2024-01-01 00:00:00" (Json.str "unknown") "none"))])
      rfl).1 (by omega),
   (webhook_downstream_mapping (some "https://discord.example/hook") none
      (ParseOutcome.value (some (Json.obj []))) "2024-01-01 00:00:00" 404 "rate limited"
      (Json.obj [("content",
        Json.str (messageText "2024-01-01 00:00:00" (Json.str "unknown") "none"))])
      rfl).2 (by omega)⟩

/-- Claim C6: whenever the outbound POST is made and fails at the network
level before any response (requests raising a RequestException), the
handler answers 503 with the Could not connect to Discord body; the POST
is issued with the bounded five-second timeout recorded from line 90. -/
theorem webhook_network_failure (url sk : Option String) (parse : ParseOutcome)
    (t : String) (p : Json)
    (h : (webhook url sk parse t Downstream.netFail).outbound = some p) :
    webhook url sk parse t Downstream.netFail =
      HandlerOutcome.resp ⟨503, errBody "Could not connect to Discord"⟩ (some p) ∧
    requestTimeoutSeconds = 5 := by
  obtain ⟨data, hparse, heq⟩ := webhook_reaches_relay _ _ _ _ _ _ h
  rw [heq] at h ⊢
  obtain ⟨msg, hb, hp⟩ := relay_outbound _ _ _ _ h
  rw [relay_of_ok _ _ _ _ hb]
  subst hp
  exact ⟨rfl, rfl⟩

/-- Witness for C6 at a concrete input: the raw-mode spec scenario body
forwarded in structured mode with a timeout gives 503. -/
theorem webhook_network_failure_witness :
    webhook (some "https://discord.example/hook") none
      (ParseOutcome.value (some (Json.obj [("ticker", Json.str "ETHUSD")])))
      "2024-01-01 00:00:00" Downstream.netFail =
      HandlerOutcome.resp ⟨503, errBody "Could not connect to Discord"⟩
        (some (Json.obj [("content",
          Json.str (messageText "2024-01-01 00:00:00" (Json.str "ETHUSD") "none"))])) ∧
    requestTimeoutSeconds = 5 :=
  webhook_network_failure (some "https://discord.example/hook") none
    (ParseOutcome.value (some (Json.obj [("ticker", Json.str "ETHUSD")])))
    "2024-01-01 00:00:00"
    (Json.obj [("content",
      Json.str (messageText "2024-01-01 00:00:00" (Json.str "ETHUSD") "none"))])
    rfl

/-- Claim C7: under the shipped configuration (SECRET_KEY = None, so the
key check is skipped), a payload that parses as JSON but has the wrong
shape for the nested extraction (the try-block of lines 75-83 raising:
top level not an object, strategy present but not a mapping, or
order_action not a string) is answered 400 with the Invalid data format
body and no outbound call. -/
theorem webhook_invalid_shape (url : Option String) (data : Json) (t : String)
    (down : Downstream) (hurl : optFalsy url = false)
    (hbad : buildMessage data t = Except.error ()) :
    webhook url SECRET_KEY (ParseOutcome.value (some data)) t down =
      HandlerOutcome.resp ⟨400, errBody "Invalid data format"⟩ none := by
  unfold webhook SECRET_KEY
  simp [hurl, relay, hbad]

/-- Witness for C7 at the three concrete wrong shapes named by the claim:
a non-object top level, a strategy value that is not a mapping, and an
order_action value that is not a string. -/
theorem webhook_invalid_shape_witness :
    webhook (some "https://discord.example/hook") SECRET_KEY
      (ParseOutcome.value (some (Json.arr []))) "2024-01-01 00:00:00"
      Downstream.netFail =
      HandlerOutcome.resp ⟨400, errBody "Invalid data format"⟩ none ∧
    webhook (some "https://discord.example/hook") SECRET_KEY
      (ParseOutcome.value (some (Json.obj [("strategy", Json.str "x")])))
      "2024-01-01 00:00:00" Downstream.netFail =
      HandlerOutcome.resp ⟨400, errBody "Invalid data format"⟩ none ∧
    webhook (some "https://discord.example/hook") SECRET_KEY
      (ParseOutcome.value (some (Json.obj [("ticker", Json.str "BTCUSD"),
        ("strategy", Json.obj [("order_action", Json.num 1)])])))
      "2024-01-01 00:00:00" Downstream.netFail =
      HandlerOutcome.resp ⟨400, errBody "Invalid data format"⟩ none :=
  ⟨webhook_invalid_shape (some "https://discord.example/hook") (Json.arr [])
     "2024-01-01 00:00:00" Downstream.netFail rfl rfl,
   webhook_invalid_shape (some "https://discord.example/hook")
     (Json.obj [("strategy", Json.str "x")])
     "2024-01-01 00:00:00" Downstream.netFail rfl rfl,
   webhook_invalid_shape (some "https://discord.example/hook")
     (Json.obj [("ticker", Json.str "BTCUSD"),
       ("strategy", Json.obj [("order_action", Json.num 1)])])
     "2024-01-01 00:00:00" Downstream.netFail rfl rfl⟩

/-- Claim C8, counterexample: with a configured (non-empty) secret and a
JSON payload that is not an object (here an empty array), data.get at
line 70 raises an AttributeError outside every try-block, so the
exception escapes the handler and no response of the documented shape is
produced. -/
theorem webhook_nonobject_secret_uncaught :
    webhook (some "https://discord.example/hook") (some "sec")
      (ParseOutcome.value (some (Json.arr []))) "2024-01-01 00:00:00"
      (Downstream.reply 204 "") = HandlerOutcome.uncaught ∧
    ¬ goodOutcome (webhook (some "https://discord.example/hook") (some "sec")
      (ParseOutcome.value (some (Json.arr []))) "2024-01-01 00:00:00"
      (Downstream.reply 204 "")) :=
  ⟨rfl, fun hcon => hcon⟩

theorem relay_goodOutcome (data : Json) (t : String) (down : Downstream) :
    goodOutcome (relay data t down) := by
  unfold relay
  split
  · exact ⟨by simp, rfl⟩
  · split
    · exact ⟨by simp, rfl⟩
    · split
      · exact ⟨by simp, rfl⟩
      · exact ⟨by simp, rfl⟩

/-- Claim C8, amended: for every request and configuration in which the
secret check is disabled (no secret, or an empty one) or the parsed
payload is a JSON object, the handler returns a response whose status
code is one of 200, 400, 403, 500, 502, 503 and whose body is a JSON
object with a status field of ok or error and a message field on error;
the one excluded combination (non-empty secret with a non-object JSON
payload) instead lets an AttributeError escape the handler. -/
theorem webhook_total_response (url sk : Option String) (parse : ParseOutcome)
    (t : String) (down : Downstream)
    (hsafe : optFalsy sk = true ∨
      ∀ d, parse = ParseOutcome.value (some d) → ∃ fs, d = Json.obj fs) :
    goodOutcome (webhook url sk parse t down) := by
  unfold webhook
  by_cases hu : optFalsy url = true
  · simp only [hu, if_true]
    exact ⟨by simp, rfl⟩
  · simp only [hu, Bool.false_eq_true, if_false]
    cases parse with
    | raised => exact ⟨by simp, rfl⟩
    | value d =>
        cases d with
        | none => exact ⟨by simp, rfl⟩
        | some data =>
            cases sk with
            | none => exact relay_goodOutcome data t down
            | some s =>
                by_cases hs : s.isEmpty = true
                · simp only [hs, if_true]
                  exact relay_goodOutcome data t down
                · simp only [hs, Bool.false_eq_true, if_false]
                  rcases hsafe with hsk | hobj
                  · exact absurd hsk (by simp [optFalsy, hs])
                  · obtain ⟨fs, hfs⟩ := hobj data rfl
                    subst hfs
                    by_cases hk : keyMatches (jlookup fs "key") s = true
                    · simp only [hk, if_true]
                      exact relay_goodOutcome (Json.obj fs) t down
                    · simp only [hk, Bool.false_eq_true, if_false]
                      exact ⟨by simp, rfl⟩

/-- Witness for the amended C8 at a concrete input: secret unset and a
non-object payload still produce a documented response (here the 400
Invalid data format path). -/
theorem webhook_total_response_witness :
    goodOutcome (webhook (some "https://discord.example/hook") none
      (ParseOutcome.value (some (Json.str "free text"))) "2024-01-01 00:00:00"
      (Downstream.reply 404 "x")) :=
  webhook_total_response (some "https://discord.example/hook") none
    (ParseOutcome.value (some (Json.str "free text"))) "2024-01-01 00:00:00"
    (Downstream.reply 404 "x") (Or.inl rfl)

/-- Claim C9: in the raw-text deployment variant (modelled from the spec,
see webhookRaw), a body that decodes to non-empty text is forwarded with
the outbound content equal to the decoded text unchanged, and a body
whose decoding fails or yields the empty string is answered 400 with no
outbound call. -/
theorem webhookRaw_content (url : Option String) (decoded : Option String)
    (down : Downstream) (hurl : optFalsy url = false) :
    (∀ txt, decoded = some txt → txt.isEmpty = false →
      (webhookRaw url decoded down).outbound =
        some (Json.obj [("content", Json.str txt)])) ∧
    ((decoded = none ∨ decoded = some "") →
      webhookRaw url decoded down =
        HandlerOutcome.resp ⟨400, errBody "Invalid or empty body"⟩ none) := by
  constructor
  · intro txt hd ht
    subst hd
    unfold webhookRaw
    simp only [hurl, Bool.false_eq_true, if_false, ht]
    cases down with
    | netFail => rfl
    | reply st text =>
        by_cases hst : 200 ≤ st ∧ st < 300 <;>
          simp [hst, HandlerOutcome.outbound]
  · intro hd
    rcases hd with hd | hd <;> subst hd <;> unfold webhookRaw <;> simp [hurl] <;>
      (intro h2
       exact absurd h2 (by decide))

/-- Witness for C9 at the concrete raw-mode scenario from the spec: the
body Long signal on ETHUSD is forwarded unchanged. -/
theorem webhookRaw_content_witness :
    (webhookRaw (some "https://discord.example/hook")
      (some "Long signal on ETHUSD") Downstream.netFail).outbound =
      some (Json.obj [("content", Json.str "Long signal on ETHUSD")]) :=
  (webhookRaw_content (some "https://discord.example/hook")
    (some "Long signal on ETHUSD") Downstream.netFail rfl).1
    "Long signal on ETHUSD" rfl rfl
